import Mathlib

/-!
Verification of the hybrid sentiment-analysis backend.

Shallow embedding of the pipeline code:
 - `src/analysis.py`   (TransformersAnalysis, GroqAnalysis)
 - `src/services.py`   (AnalysisPipeline: routing, hybrid strategy, run, stats)
 - `src/database.py`   (MongoManager: trend aggregation, competitor comparison)

Modelling conventions:
 - Python floats are modelled as exact rationals; the code only passes scores
   through or uses the literal 0.5, so no float rounding is observable.
 - Timestamps are natural numbers counting minutes since an arbitrary epoch;
   the Mongo `dateToString` hour/minute truncation becomes arithmetic
   truncation, and lexicographic order on the zero-padded format strings
   coincides with numeric order on the truncated values.
 - The sha256 content hash that keys the result cache is modelled by the text
   itself (the hash is injective for the purposes of the cache contract).
 - Concurrent `asyncio.gather` execution is determinised as a left-to-right
   fold: the properties proved here (counts, persistence, ordering, cache
   contents) do not depend on interleaving.
 - Exceptions are modelled with `Except`/`Option` at the points where the
   code can raise; a handler that swallows an exception becomes a `match` on
   the error case.
-/

/-- Modelled from the spec: the pydantic models module (`src/models.py`) is
absent from the source tree; per the spec an aspect entry is
`{aspect name, aspect sentiment, supporting quote}`.  Fields are plain
strings, the permissive carrier the analysis code relies on. -/
structure AspectSentiment where
  aspect : String
  sentiment : String
  quote : String
deriving DecidableEq, Repr

/-- Modelled from the spec: the pydantic models module (`src/models.py`) is
absent from the source tree; per the spec an AnalysisResult is
`{sentiment label, confidence score, emotion tags, intent label, aspect list}`.
The sentiment label is carried as a plain string so that the exact strings
produced by `analysis.py` (including misspellings) are representable. -/
structure AnalysisResult where
  sentiment : String
  score : ℚ
  emotions : List String
  intent : String
  aspects : List AspectSentiment
deriving DecidableEq, Repr

/-- Outcome of one invocation of the underlying transformer sentiment model
inside `TransformersAnalysis.analyze_sentiment`: either a raw
`{label, score}` prediction, or an exception raised by the model call
(caught by the `except` branch of the method). -/
inductive ModelOutcome where
  | ok (label : String) (score : ℚ)
  | err
deriving DecidableEq, Repr

/-- Return value of `TransformersAnalysis.analyze_sentiment`: the
`{"label": ..., "score": ...}` dict. -/
structure LabelScore where
  label : String
  score : ℚ
deriving DecidableEq, Repr

set_option maxRecDepth 40000

/-- Python `str.lower` on the character list (structural recursion so that
concrete evaluations reduce; the texts and labels at play are ASCII, where
`Char.toLower` agrees with Python). -/
def lowerChars : List Char → List Char
  | [] => []
  | c :: cs => c.toLower :: lowerChars cs

/-- Python `str.lower`. -/
def strToLower (s : String) : String := String.mk (lowerChars s.data)

/-- The `label_map` dict of `TransformersAnalysis.analyze_sentiment`,
as a partial lookup (`dict.get` without its default). The `netural`
entries transcribe the source verbatim. -/
def labelMap (l : String) : Option String :=
  if l = "positive" then some "positive"
  else if l = "negative" then some "negative"
  else if l = "netural" then some "netural"
  else if l = "label_0" then some "negative"
  else if l = "label_1" then some "neutral"
  else if l = "label_2" then some "positive"
  else none

/-- Source `TransformersAnalysis.analyze_sentiment`: maps the raw model outcome to
a `{label, score}` dict; the label is looked up after lowercasing with
default `"neutral"`, the score is passed through unchanged.  The exception
branch returns `{"label": "netural", "score": 0.5}` (string transcribed
verbatim from the source). -/
def analyze_sentiment (out : ModelOutcome) : LabelScore :=
  match out with
  | .ok lbl score => { label := (labelMap (strToLower lbl)).getD "neutral", score := score }
  | .err => { label := "netural", score := 1/2 }

/-- The `emotion_map` of `TransformersAnalysis.basic_analysis`
(with the `dict.get` default `["neutral"]`). -/
def emotionMapBasic (s : String) : List String :=
  if s = "positive" then ["satisfaction", "joy"]
  else if s = "negative" then ["frustration", "disappointment"]
  else if s = "neutral" then ["neutral"]
  else ["neutral"]

/-- Source `TransformersAnalysis.basic_analysis`: classify, then attach emotions,
a constant intent and an empty aspect list. -/
def basic_analysis (out : ModelOutcome) : AnalysisResult :=
  let sd := analyze_sentiment out
  { sentiment := sd.label
    score := sd.score
    emotions := emotionMapBasic sd.label
    intent := "feedback"
    aspects := [] }

/-- Environment for `GroqAnalysis`: whether the Groq client was constructed,
the behaviour of the local transformer model per text, and the outcome of a
remote aspect-extraction call per text.  `Except.error` stands for any
failure inside the `try` block of `extract_aspects_with_llm` (rate limit
after exhausted retries, malformed payload failing `eval`, transport error). -/
structure GroqEnv where
  clientPresent : Bool
  modelOut : String → ModelOutcome
  llmAspects : String → Except String (List AspectSentiment)

/-- The in-process result cache `GroqAnalysis._cache`, an association list
keyed by content hash. -/
abbrev Cache := List (String × AnalysisResult)

/-- Lookup in the cache (Python `cache_key in self._cache` / indexing). -/
def cacheLookup (c : Cache) (k : String) : Option AnalysisResult :=
  (c.find? (fun p => p.1 = k)).map Prod.snd

/-- Source `GroqAnalysis._get_cache_key`: sha256 of the text, modelled by the text
itself (content hashing is injective for the cache contract). -/
def getCacheKey (text : String) : String := text

/-- Source `GroqAnalysis.extract_aspects_with_llm`: returns `[]` when the client is
absent; otherwise issues the remote call and returns the parsed aspect list,
or `[]` when anything in the `try` block fails (the `except Exception`
branch). It never raises to its caller. -/
def extract_aspects_with_llm (env : GroqEnv) (text : String) : List AspectSentiment :=
  if env.clientPresent then
    match env.llmAspects text with
    | .ok aspects => aspects
    | .error _ => []
  else []

/-- The `emotion_map` of `GroqAnalysis.analyze_text`
(with the `dict.get` default `["neutral"]`). -/
def emotionMapHybrid (s : String) : List String :=
  if s = "positive" then ["satisfaction", "appreciation"]
  else if s = "negative" then ["frustration", "concern"]
  else if s = "neutral" then ["neutral"]
  else ["neutral"]

/-- Result of one `GroqAnalysis.analyze_text` call: the returned
AnalysisResult, the cache afterwards, how many remote (Groq) engine
invocations were made and how many local transformer invocations. -/
structure AnalyzeOut where
  result : AnalysisResult
  cache : Cache
  remoteCalls : Nat
  localCalls : Nat
deriving DecidableEq, Repr

/-- Source `GroqAnalysis.analyze_text`: cache hit returns the prior result with no
engine call; on a miss, the local transformer classifies (always), the
remote engine extracts aspects when `use_hybrid` is set and the client is
present, and the combined result is stored in the cache before returning. -/
def analyze_text (env : GroqEnv) (cache : Cache) (text : String) (use_hybrid : Bool) :
    AnalyzeOut :=
  let key := getCacheKey text
  match cacheLookup cache key with
  | some r => { result := r, cache := cache, remoteCalls := 0, localCalls := 0 }
  | none =>
    let sd := analyze_sentiment (env.modelOut text)
    let remote := use_hybrid && env.clientPresent
    let aspects := if remote then extract_aspects_with_llm env text else []
    let result : AnalysisResult :=
      { sentiment := sd.label
        score := sd.score
        emotions := emotionMapHybrid sd.label
        intent := "user_feedback"
        aspects := aspects }
    { result := result
      cache := (key, result) :: cache
      remoteCalls := if remote then 1 else 0
      localCalls := 1 }

/-- A retrieved raw item (`item` dict in `services.py`).  A missing `text`
key is represented by the empty string (the code collapses both through
`item.get('text', '')`); a missing timestamp is `none`
(`item.get('timestamp', datetime.now(...))`). -/
structure RawItem where
  text : String
  source : String
  timestamp : Option Nat
deriving DecidableEq, Repr

/-- A persisted sentiment record (`SentimentRecord` of the absent
`src/models.py`). Modelled from the spec: `{query subject, text, source,
timestamp, AnalysisResult}`; the persisted id is assigned by storage and
not modelled. -/
structure SentimentRecord where
  query : String
  text : String
  source : String
  timestamp : Nat
  analysis : AnalysisResult
deriving DecidableEq, Repr

/-- The `aspect_keywords` list of `AnalysisPipeline._should_use_llm`. -/
def aspect_keywords : List String :=
  ["battery", "screen", "performance", "design", "price", "quality",
   "durability", "camera", "software", "features", "support"]

/-- Character-list version of `String.startsWith`. -/
def startsWithChars : List Char → List Char → Bool
  | [], _ => true
  | _ :: _, [] => false
  | a :: as, b :: bs => a == b && startsWithChars as bs

/-- Does `kw` occur as a contiguous run inside `hay`. -/
def hasSubChars (kw : List Char) : List Char → Bool
  | [] => kw.isEmpty
  | b :: bs => startsWithChars kw (b :: bs) || hasSubChars kw bs

/-- Python substring containment `kw in text`. -/
def containsSub (hay kw : String) : Bool := hasSubChars kw.data hay.data

/-- Source `AnalysisPipeline._should_use_llm`: the tier-routing function.
Transcribed rule for rule from the source. -/
def should_use_llm (text : String) (index : Nat) (total : Nat) : Bool :=
  if text.length < 100 then false
  else if index % 3 == 0 then true
  else if aspect_keywords.any (fun kw => containsSub (strToLower text) kw) then true
  else false

/-- Result of one `AnalysisPipeline._analyze_with_hybrid_strategy` task:
the produced record (none for an empty-text item), the cache afterwards,
and the increments to the pipeline counters `llm_call_count` and
`transformer_call_count`, plus the number of actual remote engine
invocations performed inside `analyze_text`. -/
structure StratOut where
  record : Option SentimentRecord
  cache : Cache
  llmCalls : Nat
  transformerCalls : Nat
  remoteInvocations : Nat
deriving DecidableEq, Repr

/-- Source `AnalysisPipeline._analyze_with_hybrid_strategy`: drop empty-text items;
route with `_should_use_llm`; on the LLM route call `analyze_text`
(which never raises and never returns a falsy result in this code, so the
record is built there and the transformers fallback is not reached);
otherwise run `basic_analysis`.  `now` stands for `datetime.now(...)`. -/
def analyze_with_hybrid_strategy (env : GroqEnv) (cache : Cache) (item : RawItem)
    (query : String) (index : Nat) (total : Nat) (now : Nat) : StratOut :=
  if item.text = "" then
    { record := none, cache := cache, llmCalls := 0, transformerCalls := 0,
      remoteInvocations := 0 }
  else if should_use_llm item.text index total then
    let out := analyze_text env cache item.text true
    { record := some
        { query := query
          text := item.text
          source := item.source
          timestamp := item.timestamp.getD now
          analysis := out.result }
      cache := out.cache
      llmCalls := 1
      transformerCalls := 0
      remoteInvocations := out.remoteCalls }
  else
    { record := some
        { query := query
          text := item.text
          source := item.source
          timestamp := item.timestamp.getD now
          analysis := basic_analysis (env.modelOut item.text) }
      cache := cache
      llmCalls := 0
      transformerCalls := 1
      remoteInvocations := 0 }

/-- Source `AnalysisPipeline._batch_analyze_transformers`: transformers-only batch
path, skipping empty-text items; returns the records and the
`transformer_call_count` increment. -/
def batch_analyze_transformers (env : GroqEnv) (query : String) (now : Nat) :
    List RawItem → List SentimentRecord × Nat
  | [] => ([], 0)
  | item :: rest =>
    let out := batch_analyze_transformers env query now rest
    if item.text = "" then out
    else
      ({ query := query
         text := item.text
         source := item.source
         timestamp := item.timestamp.getD now
         analysis := basic_analysis (env.modelOut item.text) } :: out.1,
       out.2 + 1)

/-- Accumulated outcome of the `asyncio.gather` over the
`_analyze_with_hybrid_strategy` tasks: the surviving records in task order,
the final cache and the counter totals. -/
structure TasksOut where
  records : List SentimentRecord
  cache : Cache
  llmCalls : Nat
  transformerCalls : Nat
  remoteInvocations : Nat
deriving DecidableEq, Repr

/-- The task list built by `AnalysisPipeline.run` in the `llm` and `hybrid`
branches: one `_analyze_with_hybrid_strategy` task per item with its
enumeration index, gathered in order, then filtered down to the
`SentimentRecord` results. -/
def runTasks (env : GroqEnv) (query : String) (now : Nat) (total : Nat) :
    Nat → Cache → List RawItem → TasksOut
  | _, cache, [] =>
    { records := [], cache := cache, llmCalls := 0, transformerCalls := 0,
      remoteInvocations := 0 }
  | idx, cache, item :: rest =>
    let out := analyze_with_hybrid_strategy env cache item query idx total now
    let next := runTasks env query now total (idx + 1) out.cache rest
    { records := out.record.toList ++ next.records
      cache := next.cache
      llmCalls := out.llmCalls + next.llmCalls
      transformerCalls := out.transformerCalls + next.transformerCalls
      remoteInvocations := out.remoteInvocations + next.remoteInvocations }

/-- The statistics dict built by `AnalysisPipeline._build_stats`. -/
structure Stats where
  query : String
  mode : String
  items_retrieved : Nat
  items_saved : Nat
  success_rate : ℚ
  llm_calls : Nat
  transformer_calls : Nat
  llm_reduction : ℚ
deriving DecidableEq, Repr

/-- Source `AnalysisPipeline._build_stats`. -/
def build_stats (saved : Nat) (total : Nat) (mode : String)
    (llmCount : Nat) (transformerCount : Nat) : Stats :=
  { query := "N/A"
    mode := mode
    items_retrieved := total
    items_saved := saved
    success_rate := if 0 < total then (saved : ℚ) / (total : ℚ) * 100 else 0
    llm_calls := llmCount
    transformer_calls := transformerCount
    llm_reduction :=
      if 0 < total then (1 - (llmCount : ℚ) / (total : ℚ)) * 100 else 0 }

/-- Observable outcome of one `AnalysisPipeline.run` call: the value the
coroutine returns to its caller (`none` models Python `None`), the records
handed to `save_feed_item`, the final counter values and the cache. -/
structure RunOut where
  retVal : Option Stats
  persisted : List SentimentRecord
  llmCalls : Nat
  transformerCalls : Nat
  remoteInvocations : Nat
  finalCache : Cache
deriving DecidableEq, Repr

/-- Source `AnalysisPipeline.run`: counters are reset, retrieval happens once
(`retrieved` is its result); an empty retrieval returns
`_build_stats(0, 0, mode)`; otherwise the mode selects the analysis path,
survivors are persisted, and the function body ends without a `return`
statement, so the coroutine returns `None`. -/
def runPipeline (env : GroqEnv) (cache : Cache) (retrieved : List RawItem)
    (query : String) (mode : String) (now : Nat) : RunOut :=
  if retrieved = [] then
    { retVal := some (build_stats 0 0 mode 0 0)
      persisted := []
      llmCalls := 0
      transformerCalls := 0
      remoteInvocations := 0
      finalCache := cache }
  else if mode = "transformers" then
    let out := batch_analyze_transformers env query now retrieved
    { retVal := none
      persisted := out.1
      llmCalls := 0
      transformerCalls := out.2
      remoteInvocations := 0
      finalCache := cache }
  else if mode = "llm" then
    let out := runTasks env query now retrieved.length 0 cache retrieved
    { retVal := none
      persisted := out.records
      llmCalls := out.llmCalls
      transformerCalls := out.transformerCalls
      remoteInvocations := out.remoteInvocations
      finalCache := out.cache }
  else
    let out := runTasks env query now retrieved.length 0 cache retrieved
    { retVal := none
      persisted := out.records
      llmCalls := out.llmCalls
      transformerCalls := out.transformerCalls
      remoteInvocations := out.remoteInvocations
      finalCache := out.cache }

/-- One element of the `get_sentiment_trends` result
(`TrendData` of the absent `src/models.py`).  Modelled from the spec:
`{bucket label, positive count, negative count, neutral count}`; the bucket
label is the truncated timestamp. -/
structure TrendData where
  timestamp : Nat
  positive : Nat
  negative : Nat
  neutral : Nat
deriving DecidableEq, Repr

/-- Source `MongoManager.get_time_range_filter`, returned as the cutoff instant:
the filter keeps records with `timestamp >= cutoff`.  Timestamps count
minutes. -/
def get_time_range_filter (now : Nat) (time_range : String) : Nat :=
  if time_range = "1h" then now - 60
  else if time_range = "7d" then now - 7 * 24 * 60
  else now - 24 * 60

/-- The `dateToString` bucket label of `get_sentiment_trends`: minute
truncation for the `1h` window (format `%Y-%m-%dT%H:%M:00Z`, the identity at
minute resolution), hour truncation otherwise (format `%Y-%m-%dT%H:00:00Z`). -/
def bucketOf (time_range : String) (t : Nat) : Nat :=
  if time_range = "1h" then t else t / 60 * 60

/-- The `$match` stage shared by the aggregation pipelines: query equality
plus the time-range filter, over the `feed_items` collection. -/
def matchingRecords (db : List SentimentRecord) (q : String) (now : Nat)
    (tr : String) : List SentimentRecord :=
  db.filter (fun r => r.query == q && decide (get_time_range_filter now tr ≤ r.timestamp))

/-- Count of matching records in bucket `b` carrying sentiment class `cls`
(the per-(bucket, sentiment) count of the first `$group` stage). -/
def trendCount (recs : List SentimentRecord) (tr : String) (b : Nat) (cls : String) : Nat :=
  (recs.filter (fun r =>
    bucketOf tr r.timestamp == b && r.analysis.sentiment == cls)).length

/-- Source `MongoManager.get_sentiment_trends`: group matching records by bucket
label and sentiment, re-group per bucket, zero-fill the three projected
sentiment classes with `$ifNull`, and sort ascending by label.  The emitted
buckets are exactly the distinct bucket labels of matching records. -/
def get_sentiment_trends (db : List SentimentRecord) (q : String) (now : Nat)
    (tr : String) : List TrendData :=
  let recs := matchingRecords db q now tr
  let labels := ((recs.map (fun r => bucketOf tr r.timestamp)).dedup).insertionSort (· ≤ ·)
  labels.map (fun b =>
    { timestamp := b
      positive := trendCount recs tr b "positive"
      negative := trendCount recs tr b "negative"
      neutral := trendCount recs tr b "neutral" })

/-- One element of the competitor-comparison result (`ProductTrend` of the
absent `src/models.py`). Modelled from the spec: a subject name with its
trend buckets. -/
structure ProductTrend where
  product_name : String
  trends : List TrendData
deriving DecidableEq, Repr

/-- The `asyncio.gather(*tasks)` call of `get_competitor_trends` with the
default `return_exceptions=False`: either every per-product trend
computation succeeds and the results are returned in task order, or some
task raises and the exception propagates out of `gather` (here: the first
error in task order). -/
def gatherExcept (f : String → Except String (List TrendData)) :
    List String → Except String (List (List TrendData))
  | [] => .ok []
  | p :: ps =>
    match f p with
    | .error e => .error e
    | .ok t =>
      match gatherExcept f ps with
      | .error e => .error e
      | .ok ts => .ok (t :: ts)

/-- Source `MongoManager.get_competitor_trends`: gather each product's
`get_sentiment_trends` concurrently, then zip the products with the results
in input order.  `f` is the per-product trend computation including its
possible transport failure (the motor aggregate call can raise). -/
def get_competitor_trends (f : String → Except String (List TrendData))
    (products : List String) : Except String (List ProductTrend) :=
  match gatherExcept f products with
  | .error e => .error e
  | .ok results =>
    .ok ((products.zip results).map (fun pt => { product_name := pt.1, trends := pt.2 }))

/-- Sample environment: client present, model always predicts
`positive`/0.9, remote extraction succeeds with an empty aspect list. -/
def envOk : GroqEnv :=
  { clientPresent := true
    modelOut := fun _ => .ok "positive" (9/10)
    llmAspects := fun _ => .ok [] }

/-- Sample environment in which every remote aspect-extraction call fails
(for example with a malformed payload). -/
def envLlmFail : GroqEnv :=
  { clientPresent := true
    modelOut := fun _ => .ok "positive" (9/10)
    llmAspects := fun _ => .error "malformed" }

/-! ### Helper lemmas about the cache -/

theorem cacheLookup_cons_self (k : String) (r : AnalysisResult) (c : Cache) :
    cacheLookup ((k, r) :: c) k = some r := by
  simp [cacheLookup, List.find?]

theorem cacheLookup_cons_ne {k j : String} (h : j ≠ k) (r : AnalysisResult) (c : Cache) :
    cacheLookup ((j, r) :: c) k = cacheLookup c k := by
  simp [cacheLookup, List.find?, h]

theorem analyze_text_hit {env : GroqEnv} {c : Cache} {text : String} {r : AnalysisResult}
    (h : cacheLookup c (getCacheKey text) = some r) (u : Bool) :
    analyze_text env c text u
      = { result := r, cache := c, remoteCalls := 0, localCalls := 0 } := by
  simp [analyze_text, h]

theorem analyze_text_preserves_entry (env : GroqEnv) (c : Cache) (y : String) (u : Bool)
    {k : String} {r : AnalysisResult} (h : cacheLookup c k = some r) :
    cacheLookup (analyze_text env c y u).cache k = some r := by
  cases hy : cacheLookup c (getCacheKey y) with
  | some s => simp [analyze_text, hy, h]
  | none =>
    have hne : getCacheKey y ≠ k := by
      intro he
      rw [he] at hy
      rw [hy] at h
      exact Option.noConfusion h
    simp only [analyze_text, hy]
    rw [cacheLookup_cons_ne hne]
    exact h

/-! ### Claim C1 -/

/-- Claim C1 (code bug evidence): whenever retrieval yields one or more
items, `AnalysisPipeline.run` returns `None` — the statistics report is
only returned on the empty-retrieval short circuit, because the function
body ends without a `return` statement.  This holds for every mode, so the
claim that a completed run always returns a RunStatistics report fails
exactly when retrieval is nonempty. -/
theorem run_nonempty_retrieval_returns_none (env : GroqEnv) (cache : Cache)
    (retrieved : List RawItem) (query mode : String) (now : Nat)
    (h : retrieved ≠ []) :
    (runPipeline env cache retrieved query mode now).retVal = none := by
  unfold runPipeline
  simp only [if_neg h]
  split_ifs <;> rfl

/-- Witness for `run_nonempty_retrieval_returns_none` at a concrete
single-item retrieval in hybrid mode. -/
theorem run_nonempty_retrieval_returns_none_witness :
    (runPipeline envOk [] [{ text := "good", source := "Twitter", timestamp := none }]
      "q" "hybrid" 0).retVal = none :=
  run_nonempty_retrieval_returns_none envOk []
    [{ text := "good", source := "Twitter", timestamp := none }] "q" "hybrid" 0
    (by decide)

/-! ### Claim C3 -/

/-- Claim C3: calling `analyze_text` twice with the identical text returns
bit-identical results, makes at most one remote engine invocation across
the two calls, and the second (cache-hit) call invokes neither the remote
engine nor the local transformer. -/
theorem analyze_twice_identical_at_most_one_remote (env : GroqEnv) (cache : Cache)
    (X : String) :
    (analyze_text env (analyze_text env cache X true).cache X true).result
        = (analyze_text env cache X true).result ∧
    (analyze_text env cache X true).remoteCalls
        + (analyze_text env (analyze_text env cache X true).cache X true).remoteCalls ≤ 1 ∧
    (analyze_text env (analyze_text env cache X true).cache X true).remoteCalls = 0 ∧
    (analyze_text env (analyze_text env cache X true).cache X true).localCalls = 0 := by
  cases h : cacheLookup cache (getCacheKey X) with
  | some r =>
    rw [analyze_text_hit h true]
    rw [analyze_text_hit h true]
    simp
  | none =>
    have h1 : (analyze_text env cache X true).cache
        = (getCacheKey X, (analyze_text env cache X true).result) :: cache := by
      simp [analyze_text, h]
    have h2 : cacheLookup (analyze_text env cache X true).cache (getCacheKey X)
        = some (analyze_text env cache X true).result := by
      rw [h1]; exact cacheLookup_cons_self _ _ _
    rw [analyze_text_hit h2 true]
    have h3 : (analyze_text env cache X true).remoteCalls ≤ 1 := by
      simp only [analyze_text, h]
      cases env.clientPresent <;> simp
    exact ⟨rfl, by simpa using h3, rfl, rfl⟩

/-! ### Claim C10 -/

/-- Later calls to `analyze_text` never evict or overwrite an existing cache
entry. -/
theorem foldl_analyze_preserves_entry (env : GroqEnv) (k : String) (r : AnalysisResult) :
    ∀ (ys : List (String × Bool)) (st : Cache), cacheLookup st k = some r →
      cacheLookup (ys.foldl (fun c y => (analyze_text env c y.1 y.2).cache) st) k = some r := by
  intro ys
  induction ys with
  | nil => intro st h; exact h
  | cons y ys ih =>
    intro st h
    exact ih _ (analyze_text_preserves_entry env st y.1 y.2 h)

/-- Claim C10: once a result for text `X` is in the cache, any sequence of
later `analyze_text` calls (on any texts, with any `use_hybrid` flags)
leaves the entry in place, and a later `analyze_text` on `X` returns
exactly the cached result with zero remote and zero local engine calls —
in particular a result cached with an empty aspect list after a remote
failure is never recomputed for the process lifetime. -/
theorem cached_result_permanent (env : GroqEnv) (st : Cache) (X : String)
    (r : AnalysisResult) (ys : List (String × Bool))
    (h : cacheLookup st (getCacheKey X) = some r) :
    analyze_text env (ys.foldl (fun c y => (analyze_text env c y.1 y.2).cache) st) X true
      = { result := r
          cache := ys.foldl (fun c y => (analyze_text env c y.1 y.2).cache) st
          remoteCalls := 0
          localCalls := 0 } := by
  exact analyze_text_hit (foldl_analyze_preserves_entry env (getCacheKey X) r ys st h) true

/-- A concrete cached result carrying an empty aspect list, as produced
when the remote extraction failed. -/
def rCached : AnalysisResult :=
  { sentiment := "positive"
    score := 9/10
    emotions := ["satisfaction", "appreciation"]
    intent := "user_feedback"
    aspects := [] }

/-- Witness for `cached_result_permanent`: a cache holding an
aspect-free result for `"x"`, one intervening call on another text under an
always-failing remote engine, then a hit on `"x"`. -/
theorem cached_result_permanent_witness :
    analyze_text envLlmFail
        (([("other", true)] : List (String × Bool)).foldl
          (fun c y => (analyze_text envLlmFail c y.1 y.2).cache) [("x", rCached)]) "x" true
      = { result := rCached
          cache := ([("other", true)] : List (String × Bool)).foldl
            (fun c y => (analyze_text envLlmFail c y.1 y.2).cache) [("x", rCached)]
          remoteCalls := 0
          localCalls := 0 } :=
  cached_result_permanent envLlmFail [("x", rCached)] "x" rCached [("other", true)] rfl

/-! ### Claim C2 -/

/-- Claim C2 (code bug evidence): in the remote-only mode `llm`, routing is
not bypassed — the `llm` branch of `run` dispatches through
`_analyze_with_hybrid_strategy`, which consults `_should_use_llm`, so a
non-empty item shorter than 100 characters is analyzed by the local
transformer and the remote engine is never invoked. -/
theorem llm_mode_short_text_never_reaches_remote (env : GroqEnv) (cache : Cache)
    (query : String) (now : Nat) (item : RawItem)
    (hne : item.text ≠ "") (hlen : item.text.length < 100) :
    (runPipeline env cache [item] query "llm" now).remoteInvocations = 0 ∧
    (runPipeline env cache [item] query "llm" now).llmCalls = 0 ∧
    (runPipeline env cache [item] query "llm" now).transformerCalls = 1 ∧
    (runPipeline env cache [item] query "llm" now).persisted.length = 1 := by
  have hroute : should_use_llm item.text 0 1 = false := by
    simp [should_use_llm, hlen]
  simp [runPipeline, runTasks, analyze_with_hybrid_strategy, hne, hroute]

/-- Witness for `llm_mode_short_text_never_reaches_remote` at a concrete
short item. -/
theorem llm_mode_short_text_never_reaches_remote_witness :
    (runPipeline envOk [] [{ text := "short", source := "Twitter", timestamp := none }]
        "q" "llm" 0).remoteInvocations = 0 ∧
    (runPipeline envOk [] [{ text := "short", source := "Twitter", timestamp := none }]
        "q" "llm" 0).llmCalls = 0 ∧
    (runPipeline envOk [] [{ text := "short", source := "Twitter", timestamp := none }]
        "q" "llm" 0).transformerCalls = 1 ∧
    (runPipeline envOk [] [{ text := "short", source := "Twitter", timestamp := none }]
        "q" "llm" 0).persisted.length = 1 :=
  llm_mode_short_text_never_reaches_remote envOk [] "q" 0
    { text := "short", source := "Twitter", timestamp := none }
    (by decide) (by decide)

/-! ### Claim C4 -/

theorem countP_not_add_countP (l : List RawItem) :
    l.countP (fun i => !(i.text == "")) + l.countP (fun i => i.text == "") = l.length := by
  induction l with
  | nil => rfl
  | cons a l ih =>
    simp only [List.countP_cons, List.length_cons]
    cases h : (a.text == "") <;> simp [h] <;> omega

theorem runTasks_records_length (env : GroqEnv) (q : String) (now total : Nat) :
    ∀ (items : List RawItem) (idx : Nat) (cache : Cache),
      (runTasks env q now total idx cache items).records.length
        = items.countP (fun i => !(i.text == "")) := by
  intro items
  induction items with
  | nil => intro idx cache; simp [runTasks]
  | cons item rest ih =>
    intro idx cache
    by_cases h : item.text = ""
    · simp [runTasks, analyze_with_hybrid_strategy, h, ih, List.countP_cons]
    · by_cases hl : should_use_llm item.text idx total
      · simp [runTasks, analyze_with_hybrid_strategy, h, hl, ih, List.countP_cons]
      · simp [runTasks, analyze_with_hybrid_strategy, h, hl, ih, List.countP_cons]

theorem extract_aspects_fail_empty (env : GroqEnv)
    (hfail : ∀ t, ∃ e, env.llmAspects t = Except.error e) (text : String) :
    extract_aspects_with_llm env text = [] := by
  obtain ⟨e, he⟩ := hfail text
  simp [extract_aspects_with_llm, he]

theorem analyze_text_aspects_empty (env : GroqEnv)
    (hfail : ∀ t, ∃ e, env.llmAspects t = Except.error e)
    (c : Cache) (hc : ∀ p ∈ c, (Prod.snd p).aspects = ([] : List AspectSentiment))
    (text : String) (u : Bool) :
    (analyze_text env c text u).result.aspects = [] ∧
    ∀ p ∈ (analyze_text env c text u).cache,
      (Prod.snd p).aspects = ([] : List AspectSentiment) := by
  cases h : cacheLookup c (getCacheKey text) with
  | some r =>
    have hr : r.aspects = [] := by
      unfold cacheLookup at h
      cases hf : List.find? (fun p => p.1 = getCacheKey text) c with
      | none => rw [hf] at h; simp at h
      | some p =>
        rw [hf] at h
        simp only [Option.map_some'] at h
        have hmem := List.mem_of_find?_eq_some hf
        rw [← Option.some.inj h]
        exact hc p hmem
    rw [analyze_text_hit h u]
    exact ⟨hr, hc⟩
  | none =>
    have hex : extract_aspects_with_llm env text = [] :=
      extract_aspects_fail_empty env hfail text
    constructor
    · simp [analyze_text, h, hex]
    · intro p hp
      simp only [analyze_text, h] at hp
      simp only [List.mem_cons] at hp
      rcases hp with hp | hp
      · rw [hp]
        simp [hex]
      · exact hc p hp

theorem runTasks_aspects_empty (env : GroqEnv) (q : String) (now total : Nat)
    (hfail : ∀ t, ∃ e, env.llmAspects t = Except.error e) :
    ∀ (items : List RawItem) (idx : Nat) (cache : Cache),
      (∀ p ∈ cache, (Prod.snd p).aspects = ([] : List AspectSentiment)) →
      (∀ r ∈ (runTasks env q now total idx cache items).records,
        r.analysis.aspects = ([] : List AspectSentiment)) ∧
      (∀ p ∈ (runTasks env q now total idx cache items).cache,
        (Prod.snd p).aspects = ([] : List AspectSentiment)) := by
  intro items
  induction items with
  | nil =>
    intro idx cache hc
    exact ⟨by simp [runTasks], by simpa [runTasks] using hc⟩
  | cons item rest ih =>
    intro idx cache hc
    by_cases h : item.text = ""
    · have hrest := ih (idx + 1) cache hc
      constructor
      · intro r hr
        simp only [runTasks, analyze_with_hybrid_strategy, if_pos h] at hr
        simp only [Option.toList_none, List.nil_append] at hr
        exact hrest.1 r hr
      · intro p hp
        simp only [runTasks, analyze_with_hybrid_strategy, if_pos h] at hp
        exact hrest.2 p hp
    · by_cases hl : should_use_llm item.text idx total
      · have ha := analyze_text_aspects_empty env hfail cache hc item.text true
        have hrest := ih (idx + 1) _ ha.2
        constructor
        · intro r hr
          simp only [runTasks, analyze_with_hybrid_strategy, if_neg h, if_pos hl] at hr
          simp only [Option.toList_some, List.cons_append, List.nil_append,
            List.mem_cons] at hr
          rcases hr with hr | hr
          · rw [hr]; exact ha.1
          · exact hrest.1 r hr
        · intro p hp
          simp only [runTasks, analyze_with_hybrid_strategy, if_neg h, if_pos hl] at hp
          exact hrest.2 p hp
      · have hrest := ih (idx + 1) cache hc
        constructor
        · intro r hr
          simp only [runTasks, analyze_with_hybrid_strategy, if_neg h, if_neg hl] at hr
          simp only [Option.toList_some, List.cons_append, List.nil_append,
            List.mem_cons] at hr
          rcases hr with hr | hr
          · rw [hr]
            simp [basic_analysis]
          · exact hrest.1 r hr
        · intro p hp
          simp only [runTasks, analyze_with_hybrid_strategy, if_neg h, if_neg hl] at hp
          exact hrest.2 p hp

/-- Claim C4: when every remote aspect-extraction call fails, a hybrid-mode
run still persists one record per retrieved item with non-empty text
(persisted count = retrieved count − empty-text items), every persisted
record falls back to the local sentiment result with an empty aspect list,
and the failure is never surfaced to the caller of `run` (the embedded
`runPipeline` is a total function: every exception is handled inside
`extract_aspects_with_llm` and the strategy wrappers). -/
theorem remote_failure_all_items_persisted (env : GroqEnv) (cache : Cache)
    (items : List RawItem) (query : String) (now : Nat)
    (hfail : ∀ t, ∃ e, env.llmAspects t = Except.error e)
    (hcache : ∀ p ∈ cache, (Prod.snd p).aspects = ([] : List AspectSentiment)) :
    (runPipeline env cache items query "hybrid" now).persisted.length
        = items.length - items.countP (fun i => i.text == "") ∧
    ∀ r ∈ (runPipeline env cache items query "hybrid" now).persisted,
      r.analysis.aspects = ([] : List AspectSentiment) := by
  by_cases h : items = []
  · subst h
    constructor
    · simp [runPipeline]
    · intro r hr
      simp [runPipeline] at hr
  · have hmode1 : ("hybrid" : String) ≠ "transformers" := by decide
    have hmode2 : ("hybrid" : String) ≠ "llm" := by decide
    have hrun : runPipeline env cache items query "hybrid" now
        = { retVal := none
            persisted := (runTasks env query now items.length 0 cache items).records
            llmCalls := (runTasks env query now items.length 0 cache items).llmCalls
            transformerCalls :=
              (runTasks env query now items.length 0 cache items).transformerCalls
            remoteInvocations :=
              (runTasks env query now items.length 0 cache items).remoteInvocations
            finalCache := (runTasks env query now items.length 0 cache items).cache } := by
      simp [runPipeline, h, hmode1, hmode2]
    rw [hrun]
    constructor
    · have hlen := runTasks_records_length env query now items.length items 0 cache
      have hsum := countP_not_add_countP items
      show (runTasks env query now items.length 0 cache items).records.length
          = items.length - items.countP (fun i => i.text == "")
      omega
    · intro r hr
      exact (runTasks_aspects_empty env query now items.length hfail items 0 cache hcache).1 r hr

/-- Concrete retrieval for the witness: one long keyword item routed to the
remote tier, one empty-text item, one short item. -/
def itemsC4 : List RawItem :=
  [ { text := "The battery life on this device is absolutely dreadful and the battery drains even when the phone is idle overnight.",
      source := "Reddit", timestamp := some 3 },
    { text := "", source := "Twitter", timestamp := none },
    { text := "Nice.", source := "Twitter", timestamp := none } ]

/-- Witness for `remote_failure_all_items_persisted`: under the
always-failing remote environment, the three-item retrieval (one of them
empty-text) persists exactly two records. -/
theorem remote_failure_all_items_persisted_witness :
    (runPipeline envLlmFail [] itemsC4 "q" "hybrid" 0).persisted.length
      = itemsC4.length - itemsC4.countP (fun i => i.text == "") :=
  (remote_failure_all_items_persisted envLlmFail [] itemsC4 "q" 0
    (fun t => ⟨"malformed", rfl⟩) (by simp)).1

/-! ### Claim C5 -/

/-- Claim C5: the tier-routing function `_should_use_llm` is a pure function
of (text, index, batch size) and evaluates its rules in order: a text
shorter than 100 characters routes local regardless of index and keywords;
otherwise an index divisible by 3 routes remote regardless of keywords;
otherwise the route is remote exactly when the lowercased text contains a
term of the fixed aspect-keyword set. -/
theorem routing_rules_in_order (text : String) (idx total : Nat) :
    (text.length < 100 → should_use_llm text idx total = false) ∧
    (100 ≤ text.length → idx % 3 = 0 → should_use_llm text idx total = true) ∧
    (100 ≤ text.length → idx % 3 ≠ 0 →
      should_use_llm text idx total
        = aspect_keywords.any (fun kw => containsSub (strToLower text) kw)) := by
  refine ⟨?_, ?_, ?_⟩
  · intro h
    simp [should_use_llm, h]
  · intro h hm
    have h1 : ¬ text.length < 100 := by omega
    simp [should_use_llm, h1, hm]
  · intro h hm
    have h1 : ¬ text.length < 100 := by omega
    have h2 : (idx % 3 == 0) = false := by
      simp [Nat.beq_eq_true_eq, hm]
    simp only [should_use_llm, if_neg h1, h2, Bool.false_eq_true, if_false]
    cases hk : aspect_keywords.any (fun kw => containsSub (strToLower text) kw) <;> simp [hk]

/-- A review text of more than 100 characters containing no aspect keyword. -/
def longPlain : String :=
  "I have been using this thing daily for roughly seven months now and overall it has been a remarkably smooth and uneventful experience."

/-- A review text of more than 100 characters containing the aspect keyword
battery. -/
def longKeyword : String :=
  "I have been using this for months and the battery drains overnight even in standby, which ruins an otherwise pleasant experience for me."

/-- Witness for `routing_rules_in_order`: a short text routes local at a
keyword-free index, a long text at index 0 routes remote, and a long
keyword text at index 1 routes remote through the keyword rule. -/
theorem routing_rules_in_order_witness :
    should_use_llm "short" 5 9 = false ∧
    should_use_llm longPlain 0 9 = true ∧
    should_use_llm longKeyword 1 9 = true := by
  refine ⟨(routing_rules_in_order "short" 5 9).1 (by decide),
          (routing_rules_in_order longPlain 0 9).2.1 (by decide) (by decide), ?_⟩
  have h := (routing_rules_in_order longKeyword 1 9).2.2 (by decide) (by decide)
  rw [h]
  decide

/-! ### Claim C7 -/

/-- Claim C7 (counterexample): a model label outside the recognized
vocabulary is mapped to `neutral` but keeps the model's reported score —
it is not mapped to score 0.5 as claimed.  Here the unrecognized label
`surprise` with score 0.9 yields `{neutral, 0.9}`, not `{neutral, 0.5}`. -/
theorem classify_unrecognized_keeps_model_score :
    analyze_sentiment (.ok "surprise" (9/10)) = { label := "neutral", score := 9/10 } ∧
    analyze_sentiment (.ok "surprise" (9/10)) ≠ { label := "neutral", score := 1/2 } := by
  constructor
  · rfl
  · intro h
    have h2 : (9 / 10 : ℚ) = 1 / 2 := congrArg LabelScore.score h
    norm_num at h2

/-- Claim C7 (amended): `classify` is total (the embedded function never
fails); a model label outside the recognized vocabulary maps to `neutral`
with the model's score passed through unchanged; the score 0.5 appears only
on the internal-error branch, which returns the misspelled label
`netural`. -/
theorem classify_total_label_mapping (lbl : String) (sc : ℚ) :
    (labelMap (strToLower lbl) = none →
      analyze_sentiment (.ok lbl sc) = { label := "neutral", score := sc }) ∧
    analyze_sentiment .err = { label := "netural", score := 1/2 } := by
  constructor
  · intro h
    simp [analyze_sentiment, h]
  · rfl

/-- Witness for `classify_total_label_mapping` at the unrecognized label
`Mixed`. -/
theorem classify_total_label_mapping_witness :
    analyze_sentiment (.ok "Mixed" (7/10)) = { label := "neutral", score := 7/10 } :=
  (classify_total_label_mapping "Mixed" (7/10)).1 (by decide)

/-! ### Claim C8 -/

/-- Claim C8 (code bug evidence): on the internal-error branch of
`analyze_sentiment`, `basic_analysis` produces an AnalysisResult whose
sentiment label is the misspelled string `netural`, which is outside
{positive, negative, neutral}; the hybrid path `analyze_text` propagates
the same label.  The score on this branch is 0.5, inside [0, 1] — only the
label invariant is broken, by the (three-fold) `netural` typo in
`TransformersAnalysis.analyze_sentiment`. -/
theorem error_branch_label_outside_vocabulary :
    (basic_analysis .err).sentiment = "netural" ∧
    "netural" ∉ (["positive", "negative", "neutral"] : List String) ∧
    (analyze_text
        { clientPresent := false, modelOut := fun _ => .err, llmAspects := fun _ => .ok [] }
        [] "it broke" true).result.sentiment = "netural" ∧
    (basic_analysis .err).score = 1/2 := by
  refine ⟨rfl, by decide, rfl, rfl⟩

/-! ### Claim C9 -/

theorem gatherExcept_all_ok (f : String → Except String (List TrendData)) :
    ∀ ps : List String, (∀ p ∈ ps, ∃ ts, f p = Except.ok ts) →
      ∃ rs, gatherExcept f ps = Except.ok rs ∧
        List.Forall₂ (fun p r => f p = Except.ok r) ps rs := by
  intro ps
  induction ps with
  | nil => intro _; exact ⟨[], rfl, List.Forall₂.nil⟩
  | cons p ps ih =>
    intro h
    obtain ⟨t, ht⟩ := h p (List.mem_cons_self p ps)
    obtain ⟨rs, hrs, hf⟩ := ih (fun q hq => h q (List.mem_cons_of_mem p hq))
    exact ⟨t :: rs, by simp [gatherExcept, ht, hrs], List.Forall₂.cons ht hf⟩

theorem gatherExcept_error (f : String → Except String (List TrendData)) :
    ∀ ps : List String, (∃ p ∈ ps, ∃ e, f p = Except.error e) →
      ∃ e, gatherExcept f ps = Except.error e := by
  intro ps
  induction ps with
  | nil =>
    rintro ⟨p, hp, _⟩
    simp at hp
  | cons q ps ih =>
    rintro ⟨p, hp, e, he⟩
    cases hfq : f q with
    | error e2 => exact ⟨e2, by simp [gatherExcept, hfq]⟩
    | ok t =>
      have hpps : p ∈ ps := by
        rcases List.mem_cons.mp hp with h | h
        · subst h
          rw [hfq] at he
          cases he
        · exact h
      obtain ⟨e3, he3⟩ := ih ⟨p, hpps, e, he⟩
      exact ⟨e3, by simp [gatherExcept, hfq, he3]⟩

theorem zip_trends_names (f : String → Except String (List TrendData))
    {ps : List String} {rs : List (List TrendData)}
    (h : List.Forall₂ (fun p r => f p = Except.ok r) ps rs) :
    ((ps.zip rs).map (fun pt => ProductTrend.mk pt.1 pt.2)).map ProductTrend.product_name
        = ps ∧
    ∀ pt ∈ (ps.zip rs).map (fun pt => ProductTrend.mk pt.1 pt.2),
      f pt.product_name = Except.ok pt.trends := by
  induction h with
  | nil => exact ⟨rfl, by simp⟩
  | @cons p r ps rs hpr _ ih =>
    constructor
    · simp only [List.zip_cons_cons, List.map_cons, List.cons.injEq]
      exact ⟨trivial, ih.1⟩
    · intro pt hpt
      simp only [List.zip_cons_cons, List.map_cons, List.mem_cons] at hpt
      rcases hpt with hpt | hpt
      · rw [hpt]
        exact hpr
      · exact ih.2 pt hpt

/-- Claim C9 (amended): the multi-subject comparison assembles its results
in the input subject order — each returned entry carries exactly its
subject's trend computation — whenever every subject's computation
succeeds; but a failure while computing any one subject's trends
propagates out of the gather and the whole comparison fails, returning no
results for the other subjects (no per-subject isolation). -/
theorem comparison_order_and_failure (f : String → Except String (List TrendData))
    (products : List String) :
    ((∀ p ∈ products, ∃ ts, f p = Except.ok ts) →
      ∃ out, get_competitor_trends f products = Except.ok out ∧
        out.map ProductTrend.product_name = products ∧
        ∀ pt ∈ out, f pt.product_name = Except.ok pt.trends) ∧
    ((∃ p ∈ products, ∃ e, f p = Except.error e) →
      ∀ out, get_competitor_trends f products ≠ Except.ok out) := by
  constructor
  · intro h
    obtain ⟨rs, hrs, hf⟩ := gatherExcept_all_ok f products h
    have hz := zip_trends_names f hf
    exact ⟨(products.zip rs).map (fun pt => ProductTrend.mk pt.1 pt.2),
      by simp [get_competitor_trends, hrs], hz.1, hz.2⟩
  · intro h out
    obtain ⟨e, he⟩ := gatherExcept_error f products h
    simp [get_competitor_trends, he]

/-- Per-subject trend computation that fails on every subject except `A`
(modelling a storage error on `B`). -/
def fBoom : String → Except String (List TrendData) :=
  fun p => if p = "A" then Except.ok [] else Except.error "boom"

/-- Per-subject trend computation that succeeds on every subject. -/
def fAllOk : String → Except String (List TrendData) := fun _ => Except.ok []

/-- Claim C9 (counterexample): with subjects `[A, B]` where `A`'s trends
succeed and `B`'s computation fails, `get_competitor_trends` returns the
error — `A`'s result is lost, so a failure on one subject does affect the
results returned for the others. -/
theorem comparison_failure_affects_other_subjects :
    fBoom "A" = Except.ok [] ∧
    fBoom "B" = Except.error "boom" ∧
    get_competitor_trends fBoom ["A", "B"] = Except.error "boom" :=
  ⟨rfl, rfl, rfl⟩

/-- Witness for `comparison_order_and_failure`: the all-success half at a
two-subject list, and the failure half at the concrete failing
environment. -/
theorem comparison_order_and_failure_witness :
    (∃ out, get_competitor_trends fAllOk ["A", "B"] = Except.ok out ∧
      out.map ProductTrend.product_name = ["A", "B"] ∧
      ∀ pt ∈ out, fAllOk pt.product_name = Except.ok pt.trends) ∧
    (∀ out, get_competitor_trends fBoom ["A", "B"] ≠ Except.ok out) :=
  ⟨(comparison_order_and_failure fAllOk ["A", "B"]).1 (fun _ _ => ⟨[], rfl⟩),
   (comparison_order_and_failure fBoom ["A", "B"]).2 ⟨"B", by simp, "boom", rfl⟩⟩

/-! ### Claim C6 -/

theorem filter_three_classes (l : List SentimentRecord) (p : SentimentRecord → Bool) :
    (l.filter (fun r => p r && r.analysis.sentiment == "positive")).length +
    (l.filter (fun r => p r && r.analysis.sentiment == "negative")).length +
    (l.filter (fun r => p r && r.analysis.sentiment == "neutral")).length =
    (l.filter (fun r => p r && (r.analysis.sentiment == "positive" ||
        r.analysis.sentiment == "negative" || r.analysis.sentiment == "neutral"))).length := by
  induction l with
  | nil => rfl
  | cons a l ih =>
    simp only [List.filter_cons]
    cases hp : p a
    · simp only [hp, Bool.false_and, if_neg Bool.false_ne_true]
      exact ih
    · simp only [hp, Bool.true_and]
      cases h1 : (a.analysis.sentiment == "positive")
      · cases h2 : (a.analysis.sentiment == "negative")
        · cases h3 : (a.analysis.sentiment == "neutral")
          · simp only [h1, h2, h3, Bool.or_false, if_neg Bool.false_ne_true]
            exact ih
          · simp only [h1, h2, h3, Bool.false_or, if_neg Bool.false_ne_true, if_pos rfl, if_true,
              List.length_cons]
            omega
        · cases h3 : (a.analysis.sentiment == "neutral")
          · simp only [h1, h2, h3, Bool.false_or, Bool.true_or, if_neg Bool.false_ne_true, if_true,
              if_pos rfl, List.length_cons]
            omega
          · have e := eq_of_beq h2
            rw [e] at h3
            exact absurd (eq_of_beq h3) (by decide)
      · cases h2 : (a.analysis.sentiment == "negative")
        · cases h3 : (a.analysis.sentiment == "neutral")
          · simp only [h1, h2, h3, Bool.true_or, if_neg Bool.false_ne_true, if_pos rfl, if_true,
              List.length_cons]
            omega
          · have e := eq_of_beq h1
            rw [e] at h3
            exact absurd (eq_of_beq h3) (by decide)
        · have e := eq_of_beq h1
          rw [e] at h2
          exact absurd (eq_of_beq h2) (by decide)

/-- Claim C6 (amended): the trend aggregation returns buckets sorted
strictly ascending by label; a label appears exactly when some matching
record falls into that bucket (empty buckets are omitted, so labels need
not be contiguous); within each emitted bucket the three sentiment classes
are zero-filled per-class counts, and their sum equals the number of
matching records in the bucket whose sentiment is one of the three
recognized classes. -/
theorem trends_sorted_zero_filled_sum (db : List SentimentRecord) (q : String)
    (now : Nat) (tr : String) :
    ((get_sentiment_trends db q now tr).map TrendData.timestamp).Sorted (· < ·) ∧
    (∀ b : Nat, b ∈ (get_sentiment_trends db q now tr).map TrendData.timestamp ↔
      ∃ r ∈ matchingRecords db q now tr, bucketOf tr r.timestamp = b) ∧
    (∀ td ∈ get_sentiment_trends db q now tr,
      td.positive = trendCount (matchingRecords db q now tr) tr td.timestamp "positive" ∧
      td.negative = trendCount (matchingRecords db q now tr) tr td.timestamp "negative" ∧
      td.neutral = trendCount (matchingRecords db q now tr) tr td.timestamp "neutral" ∧
      td.positive + td.negative + td.neutral =
        ((matchingRecords db q now tr).filter (fun r =>
          bucketOf tr r.timestamp == td.timestamp &&
          (r.analysis.sentiment == "positive" || r.analysis.sentiment == "negative" ||
           r.analysis.sentiment == "neutral"))).length) := by
  have hmap : (get_sentiment_trends db q now tr).map TrendData.timestamp
      = (((matchingRecords db q now tr).map
          (fun r => bucketOf tr r.timestamp)).dedup).insertionSort (· ≤ ·) := by
    unfold get_sentiment_trends
    rw [List.map_map]
    exact List.map_id _
  refine ⟨?_, ?_, ?_⟩
  · rw [hmap]
    have hsorted : ((((matchingRecords db q now tr).map
        (fun r => bucketOf tr r.timestamp)).dedup).insertionSort (· ≤ ·)).Sorted (· ≤ ·) :=
      List.sorted_insertionSort _ _
    have hnd : ((((matchingRecords db q now tr).map
        (fun r => bucketOf tr r.timestamp)).dedup).insertionSort (· ≤ ·)).Nodup :=
      ((List.perm_insertionSort _ _).nodup_iff).mpr (List.nodup_dedup _)
    exact hsorted.lt_of_le hnd
  · intro b
    rw [hmap, List.mem_insertionSort, List.mem_dedup, List.mem_map]
  · intro td htd
    unfold get_sentiment_trends at htd
    obtain ⟨b, _, rfl⟩ := List.mem_map.mp htd
    refine ⟨rfl, rfl, rfl, ?_⟩
    show trendCount (matchingRecords db q now tr) tr b "positive" +
        trendCount (matchingRecords db q now tr) tr b "negative" +
        trendCount (matchingRecords db q now tr) tr b "neutral" = _
    unfold trendCount
    exact filter_three_classes (matchingRecords db q now tr)
      (fun r => bucketOf tr r.timestamp == b)

/-- Concrete stored records for the claim C6 scenario: two records for
query `q` within the 24-hour window, one at minute 0 with sentiment
`positive` and one at minute 120 carrying the misspelled sentiment
`netural` that the analysis error path produces. -/
def db6 : List SentimentRecord :=
  [ { query := "q", text := "t1", source := "Reddit", timestamp := 0,
      analysis := { sentiment := "positive", score := 1/2, emotions := ["neutral"],
                    intent := "feedback", aspects := [] } },
    { query := "q", text := "t2", source := "Reddit", timestamp := 120,
      analysis := { sentiment := "netural", score := 1/2, emotions := ["neutral"],
                    intent := "feedback", aspects := [] } } ]

/-- Claim C6 (counterexample): at `now = 1440` over the 24-hour window the
buckets emitted for `db6` are the hour labels 0 and 120 — the intermediate
hour label 60 is absent, so consecutive labels are not contiguous at the
hour granularity — and the bucket at label 120 (populated only by the
`netural` record) reports counts summing to 0 although one matching record
falls into it, contradicting both the contiguity and the per-bucket sum of
the claim as stated. -/
theorem trends_counterexample :
    (get_sentiment_trends db6 "q" 1440 "24h").map TrendData.timestamp = [0, 120] ∧
    bucketOf "24h" 60 = 60 ∧
    (60 : Nat) ∉ (get_sentiment_trends db6 "q" 1440 "24h").map TrendData.timestamp ∧
    (∃ td ∈ get_sentiment_trends db6 "q" 1440 "24h",
      td.timestamp = 120 ∧ td.positive + td.negative + td.neutral = 0) ∧
    ((matchingRecords db6 "q" 1440 "24h").filter
      (fun r => bucketOf "24h" r.timestamp == 120)).length = 1 := by
  refine ⟨by decide, by decide, by decide, ?_, by decide⟩
  exact ⟨TrendData.mk 120 0 0 0, by decide, rfl, rfl⟩

/-- Witness for `trends_sorted_zero_filled_sum` at the concrete `db6`
collection: the sorted-labels half, and the per-bucket conjunction
instantiated at the emitted bucket `⟨0, 1, 0, 0⟩`. -/
theorem trends_sorted_zero_filled_sum_witness :
    ((get_sentiment_trends db6 "q" 1440 "24h").map TrendData.timestamp).Sorted (· < ·) ∧
    ((TrendData.mk 0 1 0 0).positive
        = trendCount (matchingRecords db6 "q" 1440 "24h") "24h"
            (TrendData.mk 0 1 0 0).timestamp "positive" ∧
     (TrendData.mk 0 1 0 0).negative
        = trendCount (matchingRecords db6 "q" 1440 "24h") "24h"
            (TrendData.mk 0 1 0 0).timestamp "negative" ∧
     (TrendData.mk 0 1 0 0).neutral
        = trendCount (matchingRecords db6 "q" 1440 "24h") "24h"
            (TrendData.mk 0 1 0 0).timestamp "neutral" ∧
     (TrendData.mk 0 1 0 0).positive + (TrendData.mk 0 1 0 0).negative
        + (TrendData.mk 0 1 0 0).neutral =
        ((matchingRecords db6 "q" 1440 "24h").filter (fun r =>
          bucketOf "24h" r.timestamp == (TrendData.mk 0 1 0 0).timestamp &&
          (r.analysis.sentiment == "positive" || r.analysis.sentiment == "negative" ||
           r.analysis.sentiment == "neutral"))).length) :=
  ⟨(trends_sorted_zero_filled_sum db6 "q" 1440 "24h").1,
   (trends_sorted_zero_filled_sum db6 "q" 1440 "24h").2.2 (TrendData.mk 0 1 0 0) (by decide)⟩
